import Mathlib

set_option autoImplicit false

/-!
Verification of the tool-calling orchestration in
`src/examples/use_case_2/src/main.py` and the startup check shared with
`src/examples/use_case_1/src/main.py`.

The program is embedded shallowly.  External collaborators are parameters:

* `env : String → Option String` models `os.getenv` (after `load_dotenv`);
* `service : ChatRequest → Message` models the remote chat-completion
  endpoint (`client.chat.completions.create`, projected to
  `response.choices[0].message`);
* `loads : String → Except PyError Json` models `json.loads` on the
  arguments payload of a tool call (`.error` models a raised
  `json.JSONDecodeError`);
* `now : String` models the formatted wall-clock reading
  `datetime.now().strftime("%Y-%m-%d %H:%M:%S")`.

Everything the scripts themselves do — the startup credential check, the
tool catalog, the dispatch on `function_name`, the message appends, the
prints, and the outermost `except Exception` handler — is translated
directly from the Python source.
-/

/-- Decoded JSON values, as produced by `json.loads`. -/
inductive Json where
  | null
  | bool (b : Bool)
  | num (n : Int)
  | str (s : String)
  | arr (elems : List Json)
  | obj (fields : List (String × Json))

/-- Whether a decoded value is a JSON object (a Python `dict`). -/
def Json.isObj : Json → Bool
  | .obj _ => true
  | _ => false

/-- Python type name of a decoded JSON value (`type(v).__name__`). -/
def pyTypeName : Json → String
  | .null => "NoneType"
  | .bool _ => "bool"
  | .num _ => "int"
  | .str _ => "str"
  | .arr _ => "list"
  | .obj _ => "dict"

/-- Modelled from Python `str()` on decoded JSON values.  The claims only
ever exercise the `.str` case (the decoded `location` argument); the other
cases are a plausible rendering kept total. -/
def pyStr : Json → String
  | .null => "None"
  | .bool true => "True"
  | .bool false => "False"
  | .num n => toString n
  | .str s => s
  | .arr _ => "[...]"
  | .obj _ => "\x7b...\x7d"

/-- Python exceptions that the embedded code can raise: a
`json.JSONDecodeError` from `json.loads` (carrying its rendered message)
and an `AttributeError` from calling `.get` on a non-`dict` value. -/
inductive PyError where
  | jsonDecodeError (msg : String)
  | attributeError (typeName : String) (attr : String)
deriving Repr, DecidableEq

/-- Rendering of an exception as `print(f"Error: ...")` shows it. -/
def pyErrorMessage : PyError → String
  | .jsonDecodeError msg => msg
  | .attributeError t a => "'" ++ t ++ "' object has no attribute '" ++ a ++ "'"

/-- Message roles used by the scripts. -/
inductive Role where
  | system
  | user
  | assistant
  | tool
deriving Repr, DecidableEq

/-- The `function` part of a tool call returned by the service:
`tool_call.function.name` and `tool_call.function.arguments`. -/
structure ToolCallFunction where
  name : String
  arguments : String
deriving Repr, DecidableEq

/-- One tool-call request inside an assistant reply. -/
structure ToolCall where
  id : String
  function : ToolCallFunction
deriving Repr, DecidableEq

/-- A conversation message.  Covers the dict literals built by the script
and the assistant reply object returned by the service. -/
structure Message where
  role : Role
  content : Option String := none
  tool_call_id : Option String := none
  name : Option String := none
  tool_calls : List ToolCall := []
deriving Repr, DecidableEq

/-- One named parameter in a tool descriptor's JSON-schema. -/
structure ParamProperty where
  name : String
  type : String
  description : String
deriving Repr, DecidableEq

/-- One entry of the tool catalog sent with the first request. -/
structure ToolDescriptor where
  name : String
  description : String
  properties : List ParamProperty
  required : List String
deriving Repr, DecidableEq

/-- A request to the remote completion service. -/
structure ChatRequest where
  model : String
  messages : List Message
  tools : Option (List ToolDescriptor) := none
  tool_choice : Option String := none
deriving Repr, DecidableEq

/-- Translation of `check_env` (identical in both scripts): Python's
`not os.getenv("OPENAI_API_KEY")` is true when the variable is unset or
empty, and then the process exits with status 1. -/
def check_env (env : String → Option String) : Bool :=
  match env "OPENAI_API_KEY" with
  | none => false
  | some v => v != ""

/-- Translation of `get_current_time`: the wall clock is an external
input, already formatted. -/
def get_current_time (now : String) : String :=
  now

/-- Translation of `get_weather`.  The source literal ends in the bytes
`C3 82 C2 B0` — the two characters U+00C2 U+00B0, a mojibake rendering of
the degree sign — so the sentence reads `72Â°F.`. -/
def get_weather (location : String) : String :=
  "The weather in " ++ location ++ " is currently sunny and 72Â°F."

/-- Python `dict.get(key, default)` on a decoded JSON object. -/
def dictGet (kvs : List (String × Json)) (key : String) (dflt : Json) : Json :=
  match kvs.lookup key with
  | some v => v
  | none => dflt

/-- Translation of the dispatch on `function_name` (the if/elif/else at
lines 109–114 of use_case_2).  Besides the textual result it records
which local tool functions were actually executed, as
`(function name, argument passed)` pairs.  Calling `.get` on a non-`dict`
decoded value raises `AttributeError`, as in Python. -/
def dispatchFunction (now : String) (function_name : String) (function_args : Json) :
    Except PyError (String × List (String × Option String)) :=
  if function_name = "get_current_time" then
    .ok (get_current_time now, [("get_current_time", none)])
  else if function_name = "get_weather" then
    match function_args with
    | .obj kvs =>
      let location := pyStr (dictGet kvs "location" (.str "New York"))
      .ok (get_weather location, [("get_weather", some location)])
    | v => .error (.attributeError (pyTypeName v) "get")
  else
    .ok ("Error: Function " ++ function_name ++ " not implemented", [])

/-- Processing of one tool call up to its textual result: decode the
arguments with `json.loads` (which may raise), then dispatch. -/
def processOne (loads : String → Except PyError Json) (now : String) (tc : ToolCall) :
    Except PyError (String × List (String × Option String)) :=
  match loads tc.function.arguments with
  | .error e => .error e
  | .ok function_args => dispatchFunction now tc.function.name function_args

/-- Result and executed-call list of a tool call, defined when
`processOne` succeeds (junk otherwise; only used under that hypothesis). -/
def toolOutOf (loads : String → Except PyError Json) (now : String) (tc : ToolCall) :
    String × List (String × Option String) :=
  match processOne loads now tc with
  | .ok r => r
  | .error _ => ("", [])

/-- The tool-role message the loop appends for a successfully processed
tool call (lines 117–122 of use_case_2). -/
def toolMessageOf (loads : String → Except PyError Json) (now : String) (tc : ToolCall) :
    Message :=
  { role := .tool,
    content := some (toolOutOf loads now tc).1,
    tool_call_id := some tc.id,
    name := some tc.function.name }

/-- Accumulated outcome of the `for tool_call in ...` loop:
the final conversation, every intermediate conversation state (one per
append), the processed requests in order, the local tool functions
actually executed, the `Tool used:` prints, and the first raised
exception if any. -/
structure LoopOut where
  messages : List Message
  snapshots : List (List Message)
  dispatches : List (String × String)
  localCalls : List (String × Option String)
  printed : List String
  err : Option PyError
deriving Repr

/-- Translation of the tool-call loop (lines 104–124 of use_case_2).  An
exception raised while processing a request stops the loop at once and is
reported upward; earlier appends remain. -/
def toolLoop (loads : String → Except PyError Json) (now : String)
    (messages : List Message) : List ToolCall → LoopOut
  | [] =>
    { messages := messages, snapshots := [], dispatches := [],
      localCalls := [], printed := [], err := none }
  | tool_call :: rest =>
    match processOne loads now tool_call with
    | .error e =>
      { messages := messages, snapshots := [], dispatches := [],
        localCalls := [], printed := [], err := some e }
    | .ok out =>
      let toolMessage : Message :=
        { role := .tool, content := some out.1,
          tool_call_id := some tool_call.id, name := some tool_call.function.name }
      let messages1 := messages ++ [toolMessage]
      let tail := toolLoop loads now messages1 rest
      { messages := tail.messages,
        snapshots := messages1 :: tail.snapshots,
        dispatches := (tool_call.id, tool_call.function.name) :: tail.dispatches,
        localCalls := out.2 ++ tail.localCalls,
        printed := ("Tool used: " ++ tool_call.function.name) :: tail.printed,
        err := tail.err }

/-- Everything observable about one run of a script: exit status, lines
printed, remote requests issued in order, tool-call requests dispatched in
order, local tool functions executed in order, the conversation when the
run ended, and every state the conversation list took. -/
structure RunResult where
  exitCode : Nat
  printed : List String
  remoteCalls : List ChatRequest
  dispatches : List (String × String)
  localCalls : List (String × Option String)
  finalMessages : List Message
  snapshots : List (List Message)
deriving Repr

/-- The system message of use_case_2 (line 83). -/
def systemMessage : Message :=
  { role := .system, content := some "You are a helpful assistant with access to tools." }

/-- The user message of use_case_2 (line 84). -/
def userMessage : Message :=
  { role := .user, content := some "What time is it now? And what's the weather in Tokyo?" }

/-- The initial conversation of use_case_2 (lines 82–85). -/
def initialMessages : List Message :=
  [systemMessage, userMessage]

/-- The tool catalog of use_case_2 (lines 49–79). -/
def tools : List ToolDescriptor :=
  [ { name := "get_current_time",
      description := "Get the current date and time",
      properties := [], required := [] },
    { name := "get_weather",
      description := "Get the current weather for a location",
      properties := [ { name := "location", type := "string",
                        description := "The city and state, e.g. San Francisco, CA" } ],
      required := ["location"] } ]

/-- The first request of use_case_2 (lines 88–93): the initial messages,
the tool catalog, and automatic tool choice. -/
def initialRequest : ChatRequest :=
  { model := "gpt-3.5-turbo", messages := initialMessages,
    tools := some tools, tool_choice := some "auto" }

/-- The follow-up request of use_case_2 (lines 127–130): the extended
conversation and no tool catalog. -/
def followUpRequest (messages : List Message) : ChatRequest :=
  { model := "gpt-3.5-turbo", messages := messages }

/-- What `print(x)` shows for an optional text (`None` prints as `None`). -/
def pyPrintOpt : Option String → String
  | some s => s
  | none => "None"

/-- The two lines `check_env` prints before exiting. -/
def envErrorPrinted : List String :=
  [ "Error: OPENAI_API_KEY environment variable is not set.",
    "Please set it in the .env file or as an environment variable." ]

/-- The run observed when the credential check fails: both scripts print
the two error lines and exit with status 1 before any remote call. -/
def envFailResult : RunResult :=
  { exitCode := 1, printed := envErrorPrinted, remoteCalls := [],
    dispatches := [], localCalls := [], finalMessages := [], snapshots := [] }

/-- The prints of use_case_2 that precede the branch on tool calls. -/
def startPrinted : List String :=
  ["Starting Use Case 2: Agent with Tool Example", "\nAssistant is thinking..."]

/-- Translation of the tool-calls branch of use_case_2 (lines 102–134)
together with the outermost `except Exception` handler (lines 142–144):
run the loop; if it raised, print the error and exit 1; otherwise issue
the follow-up request and print its reply's content. -/
def runToolBranch (service : ChatRequest → Message)
    (messages1 : List Message) (out : LoopOut) : RunResult :=
  match out.err with
  | some e =>
    { exitCode := 1,
      printed := startPrinted ++ out.printed ++ ["Error: " ++ pyErrorMessage e],
      remoteCalls := [initialRequest],
      dispatches := out.dispatches, localCalls := out.localCalls,
      finalMessages := out.messages,
      snapshots := initialMessages :: messages1 :: out.snapshots }
  | none =>
    let final_response := service (followUpRequest out.messages)
    { exitCode := 0,
      printed := startPrinted ++ out.printed ++
        ["\nFinal Agent Response:", pyPrintOpt final_response.content,
         "\nUse Case 2 completed successfully."],
      remoteCalls := [initialRequest, followUpRequest out.messages],
      dispatches := out.dispatches, localCalls := out.localCalls,
      finalMessages := out.messages,
      snapshots := initialMessages :: messages1 :: out.snapshots }

/-- Translation of the no-tool-calls branch of use_case_2
(lines 135–140): print the original reply's content. -/
def runNoToolBranch (assistant_response : Message) (messages1 : List Message) : RunResult :=
  { exitCode := 0,
    printed := startPrinted ++
      ["\nAgent Response (no tools used):", pyPrintOpt assistant_response.content,
       "\nUse Case 2 completed successfully."],
    remoteCalls := [initialRequest],
    dispatches := [], localCalls := [],
    finalMessages := messages1,
    snapshots := [initialMessages, messages1] }

/-- Translation of `main` of use_case_2: the credential check, the first
request, the append of the assistant reply, the Python-truthiness branch
on `assistant_response.tool_calls` (empty list is falsy), and the two
branches above. -/
def main2 (env : String → Option String) (service : ChatRequest → Message)
    (loads : String → Except PyError Json) (now : String) : RunResult :=
  if check_env env then
    let assistant_response := service initialRequest
    let messages1 := initialMessages ++ [assistant_response]
    if assistant_response.tool_calls = [] then
      runNoToolBranch assistant_response messages1
    else
      runToolBranch service messages1 (toolLoop loads now messages1 assistant_response.tool_calls)
  else
    envFailResult

/-- The single request of use_case_1 (lines 38–44): fixed messages, no
tool catalog. -/
def uc1Request : ChatRequest :=
  { model := "gpt-3.5-turbo",
    messages := [ { role := .system, content := some "You are a helpful assistant." },
                  { role := .user, content := some "Write a haiku about the ocean." } ] }

/-- Translation of `main` of use_case_1: the credential check, one
request, and the printed reply. -/
def main1 (env : String → Option String) (service : ChatRequest → Message) : RunResult :=
  if check_env env then
    let response := service uc1Request
    { exitCode := 0,
      printed := ["Starting Use Case 1: Simple Agent Example",
                  "\nAgent Response:", pyPrintOpt response.content,
                  "\nUse Case 1 completed successfully."],
      remoteCalls := [uc1Request],
      dispatches := [], localCalls := [],
      finalMessages := uc1Request.messages,
      snapshots := [uc1Request.messages] }
  else
    envFailResult

/-- Conversation snapshots as the successful loop produces them: one state
per appended tool message. -/
def snapshotsFrom (loads : String → Except PyError Json) (now : String)
    (messages : List Message) : List ToolCall → List (List Message)
  | [] => []
  | tc :: rest =>
    (messages ++ [toolMessageOf loads now tc]) ::
      snapshotsFrom loads now (messages ++ [toolMessageOf loads now tc]) rest

/-- One list extends another purely by appending at the end. -/
def ExtendsBy (xs ys : List Message) : Prop :=
  ∃ zs, ys = xs ++ zs

/-- Every step of a sequence of conversation states only appends. -/
def AppendOnlyChain : List (List Message) → Prop
  | [] => True
  | [_] => True
  | xs :: ys :: rest => ExtendsBy xs ys ∧ AppendOnlyChain (ys :: rest)

/-- Whether `pat` occurs contiguously in `s`, over the character lists. -/
def listHasPrefix : List Char → List Char → Bool
  | _, [] => true
  | [], _ :: _ => false
  | c :: cs, p :: ps => c == p && listHasPrefix cs ps

/-- Substring search by checking every suffix. -/
def listHasSubstr : List Char → List Char → Bool
  | [], pat => listHasPrefix [] pat
  | s@(_ :: cs), pat => listHasPrefix s pat || listHasSubstr cs pat

/-- Whether the string `pat` occurs contiguously inside `s`. -/
def strContainsSub (s pat : String) : Bool :=
  listHasSubstr s.data pat.data

/-- Successful processing of one tool call: `json.loads` succeeds and the
dispatch raises nothing. -/
def processOk (loads : String → Except PyError Json) (now : String) (tc : ToolCall) : Prop :=
  ∃ out, processOne loads now tc = .ok out

/-- The local tool functions executed, in order, while processing a list
of tool calls that all succeed. -/
def callsFrom (loads : String → Except PyError Json) (now : String) :
    List ToolCall → List (String × Option String)
  | [] => []
  | tc :: rest => (toolOutOf loads now tc).2 ++ callsFrom loads now rest

/-- A concrete environment carrying the credential. -/
def envDemo : String → Option String :=
  fun k => if k = "OPENAI_API_KEY" then some "sk-test" else none

/-- The environment with no credential at all. -/
def envEmpty : String → Option String :=
  fun _ => none

/-- A concrete behavior for `json.loads`: three recognised payload strings
and every other payload malformed. -/
def loadsDemo : String → Except PyError Json :=
  fun s =>
    if s = "timeargs" then .ok (.obj [])
    else if s = "weatherargs" then .ok (.obj [("location", .str "Tokyo")])
    else if s = "arrargs" then .ok (.arr [])
    else .error (.jsonDecodeError "Expecting value: line 1 column 1 (char 0)")

/-- A fixed clock reading. -/
def nowDemo : String := "2024-01-01 12:00:00"

/-- A well-formed request for the current time. -/
def timeCall : ToolCall :=
  { id := "call_1", function := { name := "get_current_time", arguments := "timeargs" } }

/-- A well-formed request for the weather in Tokyo. -/
def weatherCall : ToolCall :=
  { id := "call_2", function := { name := "get_weather", arguments := "weatherargs" } }

/-- A tool call whose arguments payload is malformed. -/
def badCall : ToolCall :=
  { id := "call_3", function := { name := "get_current_time", arguments := "oops" } }

/-- A tool call naming a function the script does not implement. -/
def unknownCall : ToolCall :=
  { id := "call_4", function := { name := "do_magic", arguments := "timeargs" } }

/-- A get_weather call whose payload decodes to a JSON array. -/
def weatherArrCall : ToolCall :=
  { id := "call_5", function := { name := "get_weather", arguments := "arrargs" } }

/-- An assistant reply carrying the given tool-call requests. -/
def assistantWith (tcs : List ToolCall) : Message :=
  { role := .assistant, content := some "asking for tools", tool_calls := tcs }

/-- A service answering the tool-carrying first request (recognised by its
tool catalog) with `reply` and any follow-up with a fixed final answer. -/
def serviceWith (reply : Message) : ChatRequest → Message :=
  fun req =>
    match req.tools with
    | some _ => reply
    | none => { role := .assistant, content := some "final answer" }

theorem toolLoop_eq_of_all_ok (loads : String → Except PyError Json) (now : String)
    (tcs : List ToolCall) (messages : List Message)
    (h : ∀ tc ∈ tcs, processOk loads now tc) :
    toolLoop loads now messages tcs =
      { messages := messages ++ tcs.map (toolMessageOf loads now),
        snapshots := snapshotsFrom loads now messages tcs,
        dispatches := tcs.map (fun tc => (tc.id, tc.function.name)),
        localCalls := callsFrom loads now tcs,
        printed := tcs.map (fun tc => "Tool used: " ++ tc.function.name),
        err := none } := by
  induction tcs generalizing messages with
  | nil => simp [toolLoop, snapshotsFrom, callsFrom]
  | cons tc rest ih =>
    obtain ⟨out, hp⟩ := h tc (by simp)
    have hrest : ∀ tc' ∈ rest, processOk loads now tc' := fun tc' h' => h tc' (by simp [h'])
    have hmsg : toolMessageOf loads now tc =
        { role := .tool, content := some out.1,
          tool_call_id := some tc.id, name := some tc.function.name } := by
      simp [toolMessageOf, toolOutOf, hp]
    simp only [toolLoop, hp, ih _ hrest, snapshotsFrom, callsFrom, List.map_cons, hmsg,
      toolOutOf, hp]
    simp [List.append_assoc]

theorem toolLoop_eq_of_first_error (loads : String → Except PyError Json) (now : String)
    (e : PyError) (pre : List ToolCall) (tc : ToolCall) (post : List ToolCall)
    (messages : List Message)
    (hpre : ∀ tc' ∈ pre, processOk loads now tc')
    (herr : processOne loads now tc = .error e) :
    toolLoop loads now messages (pre ++ tc :: post) =
      { messages := messages ++ pre.map (toolMessageOf loads now),
        snapshots := snapshotsFrom loads now messages pre,
        dispatches := pre.map (fun tc' => (tc'.id, tc'.function.name)),
        localCalls := callsFrom loads now pre,
        printed := pre.map (fun tc' => "Tool used: " ++ tc'.function.name),
        err := some e } := by
  induction pre generalizing messages with
  | nil => simp [toolLoop, herr, snapshotsFrom, callsFrom]
  | cons p pre' ih =>
    obtain ⟨out, hp⟩ := hpre p (by simp)
    have hrest : ∀ tc' ∈ pre', processOk loads now tc' := fun tc' h' => hpre tc' (by simp [h'])
    have hmsg : toolMessageOf loads now p =
        { role := .tool, content := some out.1,
          tool_call_id := some p.id, name := some p.function.name } := by
      simp [toolMessageOf, toolOutOf, hp]
    simp only [List.cons_append, toolLoop, hp, List.append_eq]
    rw [ih _ hrest]
    simp [snapshotsFrom, callsFrom, hmsg, toolOutOf, hp, List.append_assoc]

theorem appendOnlyChain_cons (xs ys : List Message) (rest : List (List Message))
    (h1 : ExtendsBy xs ys) (h2 : AppendOnlyChain (ys :: rest)) :
    AppendOnlyChain (xs :: ys :: rest) := by
  simp only [AppendOnlyChain]
  exact ⟨h1, h2⟩

theorem appendOnlyChain_toolLoop (loads : String → Except PyError Json) (now : String)
    (tcs : List ToolCall) (messages : List Message) :
    AppendOnlyChain (messages :: (toolLoop loads now messages tcs).snapshots) := by
  induction tcs generalizing messages with
  | nil => simp [toolLoop, AppendOnlyChain]
  | cons tc rest ih =>
    match hp : processOne loads now tc with
    | .error e => simp [toolLoop, hp, AppendOnlyChain]
    | .ok out =>
      simp only [toolLoop, hp]
      exact appendOnlyChain_cons _ _ _ ⟨_, rfl⟩ (ih _)

/-- C9: within a single run the conversation sequence is append-only —
every successive state of the message list extends the previous one at
the end, and no already-appended message is modified or removed. -/
theorem claim_C9 (env : String → Option String) (service : ChatRequest → Message)
    (loads : String → Except PyError Json) (now : String) :
    AppendOnlyChain ((main2 env service loads now).snapshots) := by
  unfold main2
  by_cases henv : check_env env = true
  · simp only [henv, if_true]
    by_cases htc : (service initialRequest).tool_calls = []
    · simp only [htc, if_true]
      exact appendOnlyChain_cons _ _ _ ⟨_, rfl⟩ (by simp [AppendOnlyChain])
    · simp only [htc, if_neg, if_false]
      unfold runToolBranch
      match hoe : (toolLoop loads now (initialMessages ++ [service initialRequest])
          (service initialRequest).tool_calls).err with
      | some e =>
        simp only [hoe]
        exact appendOnlyChain_cons _ _ _ ⟨_, rfl⟩ (appendOnlyChain_toolLoop _ _ _ _)
      | none =>
        simp only [hoe]
        exact appendOnlyChain_cons _ _ _ ⟨_, rfl⟩ (appendOnlyChain_toolLoop _ _ _ _)
  · simp [henv, envFailResult, AppendOnlyChain]

theorem main2_eq_of_no_tools (env : String → Option String) (service : ChatRequest → Message)
    (loads : String → Except PyError Json) (now : String)
    (henv : check_env env = true)
    (hreply : (service initialRequest).tool_calls = []) :
    main2 env service loads now =
      { exitCode := 0,
        printed := startPrinted ++
          ["\nAgent Response (no tools used):",
           pyPrintOpt (service initialRequest).content,
           "\nUse Case 2 completed successfully."],
        remoteCalls := [initialRequest],
        dispatches := [], localCalls := [],
        finalMessages := initialMessages ++ [service initialRequest],
        snapshots := [initialMessages, initialMessages ++ [service initialRequest]] } := by
  unfold main2
  simp [henv, hreply, runNoToolBranch]

theorem main2_eq_of_all_ok (env : String → Option String) (service : ChatRequest → Message)
    (loads : String → Except PyError Json) (now : String) (tcs : List ToolCall)
    (henv : check_env env = true)
    (hreply : (service initialRequest).tool_calls = tcs)
    (hne : tcs ≠ [])
    (hok : ∀ tc ∈ tcs, processOk loads now tc) :
    main2 env service loads now =
      { exitCode := 0,
        printed := startPrinted ++ tcs.map (fun tc => "Tool used: " ++ tc.function.name) ++
          ["\nFinal Agent Response:",
           pyPrintOpt (service (followUpRequest ((initialMessages ++ [service initialRequest]) ++
             tcs.map (toolMessageOf loads now)))).content,
           "\nUse Case 2 completed successfully."],
        remoteCalls := [initialRequest,
          followUpRequest ((initialMessages ++ [service initialRequest]) ++
            tcs.map (toolMessageOf loads now))],
        dispatches := tcs.map (fun tc => (tc.id, tc.function.name)),
        localCalls := callsFrom loads now tcs,
        finalMessages := (initialMessages ++ [service initialRequest]) ++
          tcs.map (toolMessageOf loads now),
        snapshots := initialMessages :: (initialMessages ++ [service initialRequest]) ::
          snapshotsFrom loads now (initialMessages ++ [service initialRequest]) tcs } := by
  unfold main2
  simp only [henv, if_true, hreply]
  rw [if_neg hne]
  unfold runToolBranch
  rw [toolLoop_eq_of_all_ok loads now tcs _ hok]

theorem main2_eq_of_first_error (env : String → Option String) (service : ChatRequest → Message)
    (loads : String → Except PyError Json) (now : String)
    (e : PyError) (pre : List ToolCall) (tc : ToolCall) (post : List ToolCall)
    (henv : check_env env = true)
    (hreply : (service initialRequest).tool_calls = pre ++ tc :: post)
    (hpre : ∀ tc' ∈ pre, processOk loads now tc')
    (herr : processOne loads now tc = .error e) :
    main2 env service loads now =
      { exitCode := 1,
        printed := startPrinted ++ pre.map (fun tc' => "Tool used: " ++ tc'.function.name) ++
          ["Error: " ++ pyErrorMessage e],
        remoteCalls := [initialRequest],
        dispatches := pre.map (fun tc' => (tc'.id, tc'.function.name)),
        localCalls := callsFrom loads now pre,
        finalMessages := (initialMessages ++ [service initialRequest]) ++
          pre.map (toolMessageOf loads now),
        snapshots := initialMessages :: (initialMessages ++ [service initialRequest]) ::
          snapshotsFrom loads now (initialMessages ++ [service initialRequest]) pre } := by
  unfold main2
  simp only [henv, if_true, hreply]
  rw [if_neg (by simp : pre ++ tc :: post ≠ [])]
  unfold runToolBranch
  rw [toolLoop_eq_of_first_error loads now e pre tc post _ hpre herr]

/-- C3: when the assistant reply carries zero tool-call requests the
orchestrator prints that reply's content unchanged as the final answer,
invokes no local tool function, and issues exactly one remote call in
total. -/
theorem claim_C3 (env : String → Option String) (service : ChatRequest → Message)
    (loads : String → Except PyError Json) (now : String)
    (henv : check_env env = true)
    (hreply : (service initialRequest).tool_calls = []) :
    (main2 env service loads now).remoteCalls = [initialRequest] ∧
    (main2 env service loads now).localCalls = [] ∧
    (main2 env service loads now).dispatches = [] ∧
    (main2 env service loads now).exitCode = 0 ∧
    (main2 env service loads now).printed =
      startPrinted ++
        ["\nAgent Response (no tools used):",
         pyPrintOpt (service initialRequest).content,
         "\nUse Case 2 completed successfully."] := by
  rw [main2_eq_of_no_tools env service loads now henv hreply]
  exact ⟨rfl, rfl, rfl, rfl, rfl⟩

/-- C3 witness: a concrete run whose reply requests no tools. -/
theorem claim_C3_witness :
    check_env envDemo = true ∧
    (serviceWith (assistantWith []) initialRequest).tool_calls = [] ∧
    (main2 envDemo (serviceWith (assistantWith [])) loadsDemo nowDemo).remoteCalls =
      [initialRequest] :=
  ⟨rfl, rfl,
    (claim_C3 envDemo (serviceWith (assistantWith [])) loadsDemo nowDemo rfl rfl).1⟩

/-- C8: with the credential absent from the environment, both scripts
report the error and exit with status 1 before any remote call. -/
theorem claim_C8 (env : String → Option String) (service : ChatRequest → Message)
    (loads : String → Except PyError Json) (now : String)
    (service1 : ChatRequest → Message)
    (habsent : env "OPENAI_API_KEY" = none) :
    (main2 env service loads now).exitCode = 1 ∧
    (main2 env service loads now).remoteCalls = [] ∧
    (main2 env service loads now).printed = envErrorPrinted ∧
    (main1 env service1).exitCode = 1 ∧
    (main1 env service1).remoteCalls = [] ∧
    (main1 env service1).printed = envErrorPrinted := by
  have hc : check_env env = false := by simp [check_env, habsent]
  unfold main2 main1
  simp [hc, envFailResult]

/-- C8 witness: the empty environment at a concrete service. -/
theorem claim_C8_witness :
    envEmpty "OPENAI_API_KEY" = none ∧
    (main2 envEmpty (serviceWith (assistantWith [])) loadsDemo nowDemo).exitCode = 1 ∧
    (main1 envEmpty (serviceWith (assistantWith []))).exitCode = 1 :=
  ⟨rfl,
    (claim_C8 envEmpty (serviceWith (assistantWith [])) loadsDemo nowDemo
      (serviceWith (assistantWith [])) rfl).1,
    (claim_C8 envEmpty (serviceWith (assistantWith [])) loadsDemo nowDemo
      (serviceWith (assistantWith [])) rfl).2.2.2.1⟩

theorem main2_remoteCalls_le_two (env : String → Option String)
    (service : ChatRequest → Message) (loads : String → Except PyError Json)
    (now : String) : (main2 env service loads now).remoteCalls.length ≤ 2 := by
  unfold main2
  by_cases henv : check_env env = true
  · simp only [henv, if_true]
    by_cases htc : (service initialRequest).tool_calls = []
    · simp [htc, runNoToolBranch]
    · simp only [htc, if_false]
      unfold runToolBranch
      match hoe : (toolLoop loads now (initialMessages ++ [service initialRequest])
          (service initialRequest).tool_calls).err with
      | some e => simp [hoe]
      | none => simp [hoe]
  · simp [henv, envFailResult]

/-- C1 counterexample: a reply carrying one tool-call request whose
arguments payload is malformed leads to zero dispatched requests and no
follow-up remote call — the run aborts with exit status 1 — where the
claim promises one local invocation per request followed by a follow-up
remote call. -/
theorem claim_C1_counterexample :
    (serviceWith (assistantWith [badCall]) initialRequest).tool_calls.length = 1 ∧
    (main2 envDemo (serviceWith (assistantWith [badCall])) loadsDemo nowDemo).dispatches.length = 0 ∧
    (main2 envDemo (serviceWith (assistantWith [badCall])) loadsDemo nowDemo).remoteCalls.length = 1 ∧
    (main2 envDemo (serviceWith (assistantWith [badCall])) loadsDemo nowDemo).exitCode = 1 :=
  ⟨rfl, rfl, rfl, rfl⟩

/-- C1 (amended): provided every tool-call request in the reply processes
without raising (its payload decodes, and decodes to an object when the
request names get_weather), a reply with N ≥ 1 requests leads to exactly
N local tool dispatches, one per request in reply order, none twice,
followed by exactly one follow-up remote call; and every run makes at
most two remote calls. -/
theorem claim_C1 (env : String → Option String) (service : ChatRequest → Message)
    (loads : String → Except PyError Json) (now : String) (tcs : List ToolCall)
    (henv : check_env env = true)
    (hreply : (service initialRequest).tool_calls = tcs)
    (hne : tcs ≠ [])
    (hok : ∀ tc ∈ tcs, processOk loads now tc) :
    (main2 env service loads now).dispatches =
      tcs.map (fun tc => (tc.id, tc.function.name)) ∧
    (main2 env service loads now).remoteCalls =
      [initialRequest,
       followUpRequest ((initialMessages ++ [service initialRequest]) ++
         tcs.map (toolMessageOf loads now))] ∧
    (∀ (env' : String → Option String) (service' : ChatRequest → Message)
       (loads' : String → Except PyError Json) (now' : String),
       (main2 env' service' loads' now').remoteCalls.length ≤ 2) := by
  rw [main2_eq_of_all_ok env service loads now tcs henv hreply hne hok]
  exact ⟨rfl, rfl, main2_remoteCalls_le_two⟩

/-- C1 witness: a concrete reply with two well-formed requests. -/
theorem claim_C1_witness :
    (serviceWith (assistantWith [timeCall, weatherCall]) initialRequest).tool_calls =
      [timeCall, weatherCall] ∧
    (main2 envDemo (serviceWith (assistantWith [timeCall, weatherCall])) loadsDemo
        nowDemo).dispatches =
      [("call_1", "get_current_time"), ("call_2", "get_weather")] :=
  ⟨rfl,
    (claim_C1 envDemo (serviceWith (assistantWith [timeCall, weatherCall])) loadsDemo
      nowDemo [timeCall, weatherCall] rfl rfl (by simp)
      (by
        intro tc h
        rcases List.mem_cons.mp h with rfl | h2
        · exact ⟨_, rfl⟩
        · rcases List.mem_cons.mp h2 with rfl | h3
          · exact ⟨_, rfl⟩
          · cases h3)).1⟩

/-- C2 counterexample: a request with a malformed arguments payload — the
run is fatal (exit status 1) and the named function is never called,
where the claim promises a non-fatal call with an empty argument set. -/
theorem claim_C2_counterexample :
    loadsDemo badCall.function.arguments =
      Except.error (PyError.jsonDecodeError "Expecting value: line 1 column 1 (char 0)") ∧
    (main2 envDemo (serviceWith (assistantWith [badCall])) loadsDemo nowDemo).localCalls = [] ∧
    (main2 envDemo (serviceWith (assistantWith [badCall])) loadsDemo nowDemo).exitCode = 1 :=
  ⟨rfl, rfl, rfl⟩

/-- C2 (amended): a malformed arguments payload aborts dispatch — the
decode exception propagates to the outermost handler, the run prints the
error and exits with status 1, the named function is never called for
that request, and no follow-up remote call is made. -/
theorem claim_C2 (env : String → Option String) (service : ChatRequest → Message)
    (loads : String → Except PyError Json) (now : String) (e : PyError)
    (pre : List ToolCall) (tc : ToolCall) (post : List ToolCall)
    (henv : check_env env = true)
    (hreply : (service initialRequest).tool_calls = pre ++ tc :: post)
    (hpre : ∀ tc' ∈ pre, processOk loads now tc')
    (hbad : loads tc.function.arguments = .error e) :
    (main2 env service loads now).exitCode = 1 ∧
    (main2 env service loads now).localCalls = callsFrom loads now pre ∧
    (main2 env service loads now).remoteCalls = [initialRequest] ∧
    (main2 env service loads now).printed =
      startPrinted ++ pre.map (fun tc' => "Tool used: " ++ tc'.function.name) ++
        ["Error: " ++ pyErrorMessage e] := by
  have herr : processOne loads now tc = .error e := by
    unfold processOne
    rw [hbad]
  rw [main2_eq_of_first_error env service loads now e pre tc post henv hreply hpre herr]
  exact ⟨rfl, rfl, rfl, rfl⟩

/-- C2 witness: one well-formed request, then one malformed one. -/
theorem claim_C2_witness :
    loadsDemo badCall.function.arguments =
      Except.error (PyError.jsonDecodeError "Expecting value: line 1 column 1 (char 0)") ∧
    (main2 envDemo (serviceWith (assistantWith [timeCall, badCall])) loadsDemo
        nowDemo).exitCode = 1 ∧
    (main2 envDemo (serviceWith (assistantWith [timeCall, badCall])) loadsDemo
        nowDemo).localCalls = [("get_current_time", none)] :=
  ⟨rfl,
    (claim_C2 envDemo (serviceWith (assistantWith [timeCall, badCall])) loadsDemo nowDemo
      (.jsonDecodeError "Expecting value: line 1 column 1 (char 0)")
      [timeCall] badCall [] rfl rfl
      (by
        intro tc' h
        rcases List.mem_cons.mp h with rfl | h2
        · exact ⟨_, rfl⟩
        · cases h2) rfl).1,
    (claim_C2 envDemo (serviceWith (assistantWith [timeCall, badCall])) loadsDemo nowDemo
      (.jsonDecodeError "Expecting value: line 1 column 1 (char 0)")
      [timeCall] badCall [] rfl rfl
      (by
        intro tc' h
        rcases List.mem_cons.mp h with rfl | h2
        · exact ⟨_, rfl⟩
        · cases h2) rfl).2.1⟩

/-- C4: a tool-call request naming a function that is neither
get_current_time nor get_weather never makes dispatch raise: dispatch
yields the synthetic error text naming the function as not implemented,
that text is appended as that request's tool message, and the
conversation continues to the follow-up request (two remote calls, exit
status 0). -/
theorem claim_C4 (env : String → Option String) (service : ChatRequest → Message)
    (loads : String → Except PyError Json) (now : String)
    (tcs : List ToolCall) (tc : ToolCall)
    (henv : check_env env = true)
    (hreply : (service initialRequest).tool_calls = tcs)
    (htc : tc ∈ tcs)
    (hok : ∀ tc' ∈ tcs, processOk loads now tc')
    (hn1 : tc.function.name ≠ "get_current_time")
    (hn2 : tc.function.name ≠ "get_weather") :
    (∀ (now' : String) (args : Json),
      dispatchFunction now' tc.function.name args =
        .ok ("Error: Function " ++ tc.function.name ++ " not implemented", [])) ∧
    (toolMessageOf loads now tc).content =
      some ("Error: Function " ++ tc.function.name ++ " not implemented") ∧
    toolMessageOf loads now tc ∈ (main2 env service loads now).finalMessages ∧
    (main2 env service loads now).remoteCalls.length = 2 ∧
    (main2 env service loads now).exitCode = 0 := by
  have hne : tcs ≠ [] := by
    intro h
    rw [h] at htc
    cases htc
  have hdisp : ∀ (now' : String) (args : Json),
      dispatchFunction now' tc.function.name args =
        .ok ("Error: Function " ++ tc.function.name ++ " not implemented", []) := by
    intro now' args
    unfold dispatchFunction
    rw [if_neg hn1, if_neg hn2]
  have hout : processOne loads now tc =
      .ok ("Error: Function " ++ tc.function.name ++ " not implemented", []) := by
    obtain ⟨out, hp⟩ := hok tc htc
    unfold processOne at hp ⊢
    cases hl : loads tc.function.arguments with
    | error e =>
      rw [hl] at hp
      exact absurd hp (by simp)
    | ok args => exact hdisp now args
  have hcontent : (toolMessageOf loads now tc).content =
      some ("Error: Function " ++ tc.function.name ++ " not implemented") := by
    simp [toolMessageOf, toolOutOf, hout]
  refine ⟨hdisp, hcontent, ?_, ?_, ?_⟩
  · rw [main2_eq_of_all_ok env service loads now tcs henv hreply hne hok]
    exact List.mem_append_right _ (List.mem_map_of_mem _ htc)
  · rw [main2_eq_of_all_ok env service loads now tcs henv hreply hne hok]
    rfl
  · rw [main2_eq_of_all_ok env service loads now tcs henv hreply hne hok]

/-- C4 witness: a reply carrying one request for an unknown function. -/
theorem claim_C4_witness :
    unknownCall.function.name = "do_magic" ∧
    (main2 envDemo (serviceWith (assistantWith [unknownCall])) loadsDemo
        nowDemo).exitCode = 0 ∧
    (toolMessageOf loadsDemo nowDemo unknownCall).content =
      some "Error: Function do_magic not implemented" :=
  ⟨rfl,
    (claim_C4 envDemo (serviceWith (assistantWith [unknownCall])) loadsDemo nowDemo
      [unknownCall] unknownCall rfl rfl (by simp)
      (by
        intro tc' h
        rcases List.mem_cons.mp h with rfl | h2
        · exact ⟨_, rfl⟩
        · cases h2)
      (by decide) (by decide)).2.2.2.2,
    (claim_C4 envDemo (serviceWith (assistantWith [unknownCall])) loadsDemo nowDemo
      [unknownCall] unknownCall rfl rfl (by simp)
      (by
        intro tc' h
        rcases List.mem_cons.mp h with rfl | h2
        · exact ⟨_, rfl⟩
        · cases h2)
      (by decide) (by decide)).2.1⟩

/-- C5 counterexample: a reply with two tool-call requests, the first of
which has a malformed payload — no tool-role message is appended for
either request (the conversation ends with just the initial pair and the
assistant reply, three messages) and no follow-up request is sent, where
the claim promises one answering message per request. -/
theorem claim_C5_counterexample :
    (serviceWith (assistantWith [badCall, timeCall]) initialRequest).tool_calls.length = 2 ∧
    (main2 envDemo (serviceWith (assistantWith [badCall, timeCall])) loadsDemo
        nowDemo).finalMessages.length = 3 ∧
    ((main2 envDemo (serviceWith (assistantWith [badCall, timeCall])) loadsDemo
        nowDemo).finalMessages.filter (fun m => m.tool_call_id == some timeCall.id)).length = 0 ∧
    (main2 envDemo (serviceWith (assistantWith [badCall, timeCall])) loadsDemo
        nowDemo).remoteCalls.length = 1 :=
  ⟨rfl, rfl, rfl, rfl⟩

/-- C5 (amended): provided every tool-call request in the reply processes
without raising, exactly one tool-role message is appended per request —
positionally, the i-th appended tool message answers the i-th request,
echoing its id as tool_call_id and its function_name as name — and all of
them precede the follow-up request, which carries them. -/
theorem claim_C5 (env : String → Option String) (service : ChatRequest → Message)
    (loads : String → Except PyError Json) (now : String) (tcs : List ToolCall)
    (henv : check_env env = true)
    (hreply : (service initialRequest).tool_calls = tcs)
    (hne : tcs ≠ [])
    (hok : ∀ tc ∈ tcs, processOk loads now tc) :
    (main2 env service loads now).finalMessages =
      (initialMessages ++ [service initialRequest]) ++ tcs.map (toolMessageOf loads now) ∧
    (tcs.map (toolMessageOf loads now)).length = tcs.length ∧
    (∀ i (h : i < tcs.length),
      (toolMessageOf loads now (tcs.get ⟨i, h⟩)).role = Role.tool ∧
      (toolMessageOf loads now (tcs.get ⟨i, h⟩)).tool_call_id = some (tcs.get ⟨i, h⟩).id ∧
      (toolMessageOf loads now (tcs.get ⟨i, h⟩)).name = some (tcs.get ⟨i, h⟩).function.name) ∧
    (main2 env service loads now).remoteCalls =
      [initialRequest,
       followUpRequest ((initialMessages ++ [service initialRequest]) ++
         tcs.map (toolMessageOf loads now))] := by
  rw [main2_eq_of_all_ok env service loads now tcs henv hreply hne hok]
  exact ⟨rfl, by simp, fun i h => ⟨rfl, rfl, rfl⟩, rfl⟩

/-- C5 witness: the two-request happy path. -/
theorem claim_C5_witness :
    (main2 envDemo (serviceWith (assistantWith [timeCall, weatherCall])) loadsDemo
        nowDemo).finalMessages =
      (initialMessages ++ [assistantWith [timeCall, weatherCall]]) ++
        [toolMessageOf loadsDemo nowDemo timeCall, toolMessageOf loadsDemo nowDemo weatherCall] :=
  (claim_C5 envDemo (serviceWith (assistantWith [timeCall, weatherCall])) loadsDemo
    nowDemo [timeCall, weatherCall] rfl rfl (by simp)
    (by
      intro tc h
      rcases List.mem_cons.mp h with rfl | h2
      · exact ⟨_, rfl⟩
      · rcases List.mem_cons.mp h2 with rfl | h3
        · exact ⟨_, rfl⟩
        · cases h3)).1

/-- C6: when tool calls were requested and all of them resolved, the
single follow-up request carries the full extended conversation — the
initial messages, the assistant reply, then every tool-result message in
dispatch order — and no tool catalog, and the content of its assistant
reply is printed as the final answer. -/
theorem claim_C6 (env : String → Option String) (service : ChatRequest → Message)
    (loads : String → Except PyError Json) (now : String) (tcs : List ToolCall)
    (henv : check_env env = true)
    (hreply : (service initialRequest).tool_calls = tcs)
    (hne : tcs ≠ [])
    (hok : ∀ tc ∈ tcs, processOk loads now tc) :
    (main2 env service loads now).remoteCalls =
      [initialRequest,
       followUpRequest ((initialMessages ++ [service initialRequest]) ++
         tcs.map (toolMessageOf loads now))] ∧
    (followUpRequest ((initialMessages ++ [service initialRequest]) ++
      tcs.map (toolMessageOf loads now))).messages =
        (initialMessages ++ [service initialRequest]) ++ tcs.map (toolMessageOf loads now) ∧
    (followUpRequest ((initialMessages ++ [service initialRequest]) ++
      tcs.map (toolMessageOf loads now))).tools = none ∧
    (main2 env service loads now).printed =
      startPrinted ++ tcs.map (fun tc => "Tool used: " ++ tc.function.name) ++
        ["\nFinal Agent Response:",
         pyPrintOpt (service (followUpRequest ((initialMessages ++ [service initialRequest]) ++
           tcs.map (toolMessageOf loads now)))).content,
         "\nUse Case 2 completed successfully."] := by
  rw [main2_eq_of_all_ok env service loads now tcs henv hreply hne hok]
  exact ⟨rfl, rfl, rfl, rfl⟩

/-- C6 witness: the two-request happy path reaches the follow-up with the
extended conversation and no tool catalog. -/
theorem claim_C6_witness :
    (main2 envDemo (serviceWith (assistantWith [timeCall, weatherCall])) loadsDemo
        nowDemo).remoteCalls =
      [initialRequest,
       followUpRequest ((initialMessages ++ [assistantWith [timeCall, weatherCall]]) ++
         [toolMessageOf loadsDemo nowDemo timeCall, toolMessageOf loadsDemo nowDemo weatherCall])] :=
  (claim_C6 envDemo (serviceWith (assistantWith [timeCall, weatherCall])) loadsDemo
    nowDemo [timeCall, weatherCall] rfl rfl (by simp)
    (by
      intro tc h
      rcases List.mem_cons.mp h with rfl | h2
      · exact ⟨_, rfl⟩
      · rcases List.mem_cons.mp h2 with rfl | h3
        · exact ⟨_, rfl⟩
        · cases h3)).1

/-- C7 counterexample: the string "72°F" does not occur in the
sentence `get_weather "Tokyo"` returns — the source literal carries the
mojibake "72Â°F", with U+00C2 between "72" and the degree sign
— although "Tokyo" does occur in it. -/
theorem claim_C7_counterexample :
    strContainsSub (get_weather "Tokyo") "72°F" = false ∧
    strContainsSub (get_weather "Tokyo") "Â°F" = true ∧
    strContainsSub (get_weather "Tokyo") "Tokyo" = true :=
  ⟨rfl, rfl, rfl⟩

/-- C7 (amended): for every location L, `get_weather L` returns the fixed
sentence "The weather in L is currently sunny and 72Â°F." — the
sunny/72-degrees sentence with a mojibake degree sign — it mentions Tokyo
when L is Tokyo, and a get_weather dispatch whose decoded arguments lack
the location key calls `get_weather "New York"`; the function itself is a
pure string former, performing no remote call. -/
theorem claim_C7 :
    (∀ location : String, get_weather location =
      "The weather in " ++ location ++ " is currently sunny and 72Â°F.") ∧
    strContainsSub (get_weather "Tokyo") "Tokyo" = true ∧
    strContainsSub (get_weather "Tokyo") "sunny" = true ∧
    strContainsSub (get_weather "Tokyo") "72" = true ∧
    strContainsSub (get_weather "Tokyo") "°F." = true ∧
    (∀ (now : String) (kvs : List (String × Json)), kvs.lookup "location" = none →
      dispatchFunction now "get_weather" (.obj kvs) =
        .ok (get_weather "New York", [("get_weather", some "New York")])) := by
  refine ⟨fun location => rfl, rfl, rfl, rfl, rfl, ?_⟩
  intro now kvs h
  unfold dispatchFunction
  rw [if_neg (by decide), if_pos rfl]
  simp [dictGet, h, pyStr]

/-- C10: a get_weather request whose payload is valid JSON but decodes to
a non-object makes dispatch raise AttributeError (calling `.get` on the
decoded value) rather than defaulting the location: no tool-role message
is appended for that request, the run ends through the outermost handler
with exit status 1 and no follow-up call, and get_weather dispatch is
total exactly on decoded key-value objects. -/
theorem claim_C10 (env : String → Option String) (service : ChatRequest → Message)
    (loads : String → Except PyError Json) (now : String)
    (pre : List ToolCall) (tc : ToolCall) (post : List ToolCall) (v : Json)
    (henv : check_env env = true)
    (hrole : (service initialRequest).role = Role.assistant)
    (hreply : (service initialRequest).tool_calls = pre ++ tc :: post)
    (hpre : ∀ tc' ∈ pre, processOk loads now tc')
    (hname : tc.function.name = "get_weather")
    (hload : loads tc.function.arguments = .ok v)
    (hnotobj : v.isObj = false)
    (hid : ∀ tc' ∈ pre, tc'.id ≠ tc.id) :
    dispatchFunction now tc.function.name v =
      .error (.attributeError (pyTypeName v) "get") ∧
    (main2 env service loads now).exitCode = 1 ∧
    (main2 env service loads now).remoteCalls = [initialRequest] ∧
    (∀ m ∈ (main2 env service loads now).finalMessages,
      m.role = Role.tool → m.tool_call_id ≠ some tc.id) ∧
    (∀ (now' : String) (kvs : List (String × Json)),
      ∃ out, dispatchFunction now' "get_weather" (.obj kvs) = .ok out) := by
  have hdisp : dispatchFunction now tc.function.name v =
      .error (.attributeError (pyTypeName v) "get") := by
    rw [hname]
    unfold dispatchFunction
    rw [if_neg (by decide), if_pos rfl]
    cases v with
    | obj kvs => simp [Json.isObj] at hnotobj
    | null => rfl
    | bool b => rfl
    | num n => rfl
    | str s => rfl
    | arr l => rfl
  have herr : processOne loads now tc = .error (.attributeError (pyTypeName v) "get") := by
    unfold processOne
    rw [hload]
    exact hdisp
  refine ⟨hdisp, ?_, ?_, ?_, ?_⟩
  · rw [main2_eq_of_first_error env service loads now _ pre tc post henv hreply hpre herr]
  · rw [main2_eq_of_first_error env service loads now _ pre tc post henv hreply hpre herr]
  · rw [main2_eq_of_first_error env service loads now _ pre tc post henv hreply hpre herr]
    intro m hm hrolem
    rcases List.mem_append.mp hm with hm1 | hm2
    · rcases List.mem_append.mp hm1 with hm0 | hasst
      · rcases List.mem_cons.mp hm0 with rfl | hm0'
        · simp [systemMessage] at hrolem
        · rcases List.mem_cons.mp hm0' with rfl | hm0''
          · simp [userMessage] at hrolem
          · cases hm0''
      · rcases List.mem_cons.mp hasst with rfl | h0
        · rw [hrole] at hrolem
          cases hrolem
        · cases h0
    · obtain ⟨tc', htc', rfl⟩ := List.mem_map.mp hm2
      intro hcontra
      exact hid tc' htc' (by simpa [toolMessageOf] using hcontra)
  · intro now' kvs
    refine ⟨(get_weather (pyStr (dictGet kvs "location" (Json.str "New York"))),
             [("get_weather", some (pyStr (dictGet kvs "location" (Json.str "New York"))))]), ?_⟩
    unfold dispatchFunction
    rw [if_neg (by decide), if_pos rfl]

/-- C10 witness: a get_weather request whose payload decodes to an empty
JSON array. -/
theorem claim_C10_witness :
    loadsDemo weatherArrCall.function.arguments = Except.ok (Json.arr []) ∧
    (main2 envDemo (serviceWith (assistantWith [weatherArrCall])) loadsDemo
        nowDemo).exitCode = 1 ∧
    (main2 envDemo (serviceWith (assistantWith [weatherArrCall])) loadsDemo
        nowDemo).remoteCalls = [initialRequest] :=
  ⟨rfl,
    (claim_C10 envDemo (serviceWith (assistantWith [weatherArrCall])) loadsDemo nowDemo
      [] weatherArrCall [] (Json.arr []) rfl rfl rfl
      (by intro tc' h; cases h) rfl rfl rfl
      (by intro tc' h; cases h)).2.1,
    (claim_C10 envDemo (serviceWith (assistantWith [weatherArrCall])) loadsDemo nowDemo
      [] weatherArrCall [] (Json.arr []) rfl rfl rfl
      (by intro tc' h; cases h) rfl rfl rfl
      (by intro tc' h; cases h)).2.2.1⟩
